import Mathlib

/-!
# Verification of the gmail/postgres MCP server

Shallow embedding of the MCP dispatch router and its two backend adapters
(`src/services/gmail.service.ts`, `src/services/postgres.service.ts`,
`src/index.ts`, `src/http-server.ts`), together with proofs of the testable
properties stated in the specification.

Conventions of the embedding:
* JavaScript strings are Lean `String`s; `trim`/`toUpperCase`/`startsWith`
  and friends are modelled by the explicit `js*` functions below (exact on
  the ASCII inputs the claims range over).
* JavaScript truthiness on optional strings (`undefined`/`""` are falsy)
  is `strTruthy`; `a || b` on strings is `jsOrStr`.
* The vendor SDK clients (a gmail API client and a pg connection pool) are
  parameters: pure response functions.  Every request an adapter submits to
  its backend is additionally recorded in an explicit trace (`List PgOp`,
  `List GmailOp`), so "no statement reaches the database" is `trace = []`.
* Thrown `Error`s become an inductive `McpError` carrying the thrown
  message verbatim; the constructor tags the error taxonomy of the spec
  (the TS code distinguishes these errors only by message text).
* `JSON.stringify(x, null, 2)` is `Json.stringify2`, a faithful
  reimplementation for the value shapes this server produces.
-/

namespace GmailMcp

/-- JavaScript truthiness of a possibly-absent string: `undefined` and `""`
are falsy, every other string is truthy. -/
def strTruthy : Option String → Bool
  | none => false
  | some s => !(s == "")

/-- JavaScript `a || b` where `a` is a possibly-absent string and `b` a
string: returns `b` when `a` is falsy. -/
def jsOrStr (a : Option String) (b : String) : String :=
  match a with
  | some s => if s == "" then b else s
  | none => b

/-- JavaScript `x || null` on a possibly-absent string: collapses the falsy
values (`undefined`, `""`) to `null`. -/
def jsOrNullStr (a : Option String) : Option String :=
  match a with
  | some s => if s == "" then none else some s
  | none => none

/-- The whitespace characters JavaScript's `trim()` removes (the ASCII
ones plus no-break space and the BOM; exact on the inputs the claims
range over). -/
def jsWhitespace (c : Char) : Bool :=
  c = ' ' || c = '\t' || c = '\n' || c = '\r' || c = '\x0b' || c = '\x0c' ||
    c.toNat = 0xA0 || c.toNat = 0xFEFF

/-- JavaScript `s.trim()`: strip leading and trailing whitespace. -/
def jsTrim (s : String) : String :=
  String.mk (((s.data.dropWhile jsWhitespace).reverse.dropWhile jsWhitespace).reverse)

/-- JavaScript `toUpperCase()` on one character (ASCII; exact on the
inputs the claims range over). -/
def jsUpperChar (c : Char) : Char :=
  if 'a' ≤ c ∧ c ≤ 'z' then Char.ofNat (c.toNat - 32) else c

/-- JavaScript `s.toUpperCase()`. -/
def jsToUpper (s : String) : String :=
  String.mk (s.data.map jsUpperChar)

/-- JavaScript `toLowerCase()` on one character (ASCII). -/
def jsLowerChar (c : Char) : Char :=
  if 'A' ≤ c ∧ c ≤ 'Z' then Char.ofNat (c.toNat + 32) else c

/-- JavaScript `s.toLowerCase()`. -/
def jsToLower (s : String) : String :=
  String.mk (s.data.map jsLowerChar)

/-- JavaScript `s.startsWith(p)`. -/
def jsStartsWith (s p : String) : Bool :=
  p.data.isPrefixOf s.data

/-- JavaScript `s.endsWith(p)`. -/
def jsEndsWith (s p : String) : Bool :=
  p.data.isSuffixOf s.data

/-- JSON values, as produced by the adapters before `JSON.stringify`. -/
inductive Json where
  | null
  | bool (b : Bool)
  | num (n : Int)
  | str (s : String)
  | arr (elems : List Json)
  | obj (fields : List (String × Json))
deriving Repr

/-- One hexadecimal digit (lowercase), for JSON control-character escapes. -/
def hexDigit (n : Nat) : String :=
  (["0", "1", "2", "3", "4", "5", "6", "7", "8", "9",
    "a", "b", "c", "d", "e", "f"]).getD n "0"

/-- JSON string escaping as performed by `JSON.stringify`. -/
def jsonEscapeChar (c : Char) : String :=
  if c = '"' then "\\\""
  else if c = '\\' then "\\\\"
  else if c = '\n' then "\\n"
  else if c = '\r' then "\\r"
  else if c = '\t' then "\\t"
  else if c = '\x08' then "\\b"
  else if c = '\x0c' then "\\f"
  else if c.toNat < 0x20 then "\\u00" ++ hexDigit (c.toNat / 16) ++ hexDigit (c.toNat % 16)
  else String.singleton c

/-- Render a JSON string literal with quotes and escapes. -/
def jsonStr (s : String) : String :=
  "\"" ++ String.join (s.data.map jsonEscapeChar) ++ "\""

/-- `n` spaces of indentation. -/
def indentSpaces (n : Nat) : String :=
  String.mk (List.replicate n ' ')

mutual

/-- `JSON.stringify(v, null, 2)` restricted to depth `ind` of indentation:
arrays and objects spread one element per line, indented two further
spaces, with the closing bracket back at the enclosing indentation. -/
def Json.render (ind : Nat) : Json → String
  | .null => "null"
  | .bool b => if b then "true" else "false"
  | .num n => toString n
  | .str s => jsonStr s
  | .arr [] => "[]"
  | .arr (x :: xs) =>
      "[\n" ++ String.intercalate ",\n" (Json.renderList (ind + 2) (x :: xs))
        ++ "\n" ++ indentSpaces ind ++ "]"
  | .obj [] => "\x7b\x7d"
  | .obj (f :: fs) =>
      "\x7b\n" ++ String.intercalate ",\n" (Json.renderFields (ind + 2) (f :: fs))
        ++ "\n" ++ indentSpaces ind ++ "\x7d"

/-- Render each array element on its own indented line. -/
def Json.renderList (ind : Nat) : List Json → List String
  | [] => []
  | x :: xs => (indentSpaces ind ++ Json.render ind x) :: Json.renderList ind xs

/-- Render each object field on its own indented line. -/
def Json.renderFields (ind : Nat) : List (String × Json) → List String
  | [] => []
  | (k, v) :: fs =>
      (indentSpaces ind ++ jsonStr k ++ ": " ++ Json.render ind v) :: Json.renderFields ind fs

end

/-- `JSON.stringify(v, null, 2)`. -/
def Json.stringify2 (v : Json) : String :=
  Json.render 0 v

/-- A JSON field for a nullable string (`x || null` fields). -/
def Json.ofOptStr : Option String → Json
  | none => .null
  | some s => .str s

/-! ## Base64 and UTF-8

`sendEmail` builds the raw RFC-2822-ish message, UTF-8 encodes it
(`Buffer.from(rawMessage)`), base64 encodes it (`.toString("base64")`) and
then url-safes it (`.replace(/\+/g,"-").replace(/\//g,"_").replace(/=+$/,"")`).
Bytes are `Nat`s below 256. -/

/-- The standard base64 alphabet, as used by `Buffer.toString("base64")`. -/
def b64Alphabet : List Char :=
  "ABCDEFGHIJKLMNOPQRSTUVWXYZabcdefghijklmnopqrstuvwxyz0123456789+/".data

/-- The character encoding one sextet. -/
def b64Char (n : Nat) : Char :=
  b64Alphabet.getD n 'A'

/-- Standard base64 encoding of a byte list, with `=` padding, as a
character list: three bytes become four alphabet characters. -/
def b64EncodeChars : List Nat → List Char
  | b1 :: b2 :: b3 :: rest =>
      b64Char (b1 / 4) :: b64Char ((b1 % 4) * 16 + b2 / 16) ::
      b64Char ((b2 % 16) * 4 + b3 / 64) :: b64Char (b3 % 64) :: b64EncodeChars rest
  | [b1, b2] => [b64Char (b1 / 4), b64Char ((b1 % 4) * 16 + b2 / 16), b64Char ((b2 % 16) * 4), '=']
  | [b1] => [b64Char (b1 / 4), b64Char ((b1 % 4) * 16), '=', '=']
  | [] => []

/-- `.replace(/\+/g, "-").replace(/\//g, "_")`, per character (only `+` and
`/` occur in base64 output, so per-character replacement coincides with the
global string replacement of the source). -/
def replUrlChar (c : Char) : Char :=
  if c = '+' then '-' else if c = '/' then '_' else c

/-- `.replace(/=+$/, "")`: drop every trailing `=`. -/
def stripTrailingEq : List Char → List Char
  | [] => []
  | c :: cs =>
      match stripTrailingEq cs with
      | [] => if c = '=' then [] else [c]
      | d :: ds => c :: d :: ds

/-- The base64url encoding produced by `sendEmail`, on bytes. -/
def b64UrlEncodeBytes (bytes : List Nat) : String :=
  String.mk (stripTrailingEq (List.map replUrlChar (b64EncodeChars bytes)))

/-- Decode one base64url character back to its sextet. -/
def b64SextetDecode (c : Char) : Option Nat :=
  if 'A' ≤ c ∧ c ≤ 'Z' then some (c.toNat - 65)
  else if 'a' ≤ c ∧ c ≤ 'z' then some (c.toNat - 97 + 26)
  else if '0' ≤ c ∧ c ≤ '9' then some (c.toNat - 48 + 52)
  else if c = '-' then some 62
  else if c = '_' then some 63
  else none

/-- Decode an unpadded base64url character list to bytes: four characters
become three bytes, a final pair or triple becomes one or two bytes; a
lone trailing character (or any non-alphabet character) is invalid. -/
def b64UrlDecodeChars : List Char → Option (List Nat)
  | [] => some []
  | [_] => none
  | [c1, c2] =>
      match b64SextetDecode c1, b64SextetDecode c2 with
      | some s1, some s2 => some [s1 * 4 + s2 / 16]
      | _, _ => none
  | [c1, c2, c3] =>
      match b64SextetDecode c1, b64SextetDecode c2, b64SextetDecode c3 with
      | some s1, some s2, some s3 => some [s1 * 4 + s2 / 16, (s2 % 16) * 16 + s3 / 4]
      | _, _, _ => none
  | c1 :: c2 :: c3 :: c4 :: rest =>
      match b64SextetDecode c1, b64SextetDecode c2, b64SextetDecode c3, b64SextetDecode c4,
          b64UrlDecodeChars rest with
      | some s1, some s2, some s3, some s4, some bs =>
          some ((s1 * 4 + s2 / 16) :: ((s2 % 16) * 16 + s3 / 4) :: ((s3 % 4) * 64 + s4) :: bs)
      | _, _, _, _, _ => none

/-- Decode a base64url string back to bytes. -/
def b64UrlDecodeString (s : String) : Option (List Nat) :=
  b64UrlDecodeChars s.data

/-- UTF-8 encoding of one code point (1 to 4 bytes). -/
def utf8EncodeChar (c : Char) : List Nat :=
  let n := c.toNat
  if n < 0x80 then [n]
  else if n < 0x800 then [0xC0 + n / 64, 0x80 + n % 64]
  else if n < 0x10000 then [0xE0 + n / 4096, 0x80 + (n / 64) % 64, 0x80 + n % 64]
  else [0xF0 + n / 262144, 0x80 + (n / 4096) % 64, 0x80 + (n / 64) % 64, 0x80 + n % 64]

/-- UTF-8 encoding of a string (`Buffer.from(s)` bytes). -/
def utf8Encode (s : String) : List Nat :=
  (s.data.map utf8EncodeChar).flatten

/-! ## Decoding message data (`Buffer.from(data, "base64").toString("utf-8")`)

`readEmail` decodes Gmail's base64url body data with Node's forgiving
base64 decoder (both alphabets accepted, non-alphabet characters ignored,
leftover bits dropped) and then interprets the bytes as UTF-8.  The claims
use this function only applied uniformly (the decoded text of a part), so
well-formed input is modelled exactly; ill-formed UTF-8 maps to
replacement characters. -/

/-- Decode one base64 character, accepting the standard and the url-safe
alphabet, as Node's decoder does. -/
def b64ForgivingSextet (c : Char) : Option Nat :=
  if 'A' ≤ c ∧ c ≤ 'Z' then some (c.toNat - 65)
  else if 'a' ≤ c ∧ c ≤ 'z' then some (c.toNat - 97 + 26)
  else if '0' ≤ c ∧ c ≤ '9' then some (c.toNat - 48 + 52)
  else if c = '+' ∨ c = '-' then some 62
  else if c = '/' ∨ c = '_' then some 63
  else none

/-- Regroup sextets into bytes; leftover bits of a final incomplete group
are dropped. -/
def b64BytesOfSextets : List Nat → List Nat
  | s1 :: s2 :: s3 :: s4 :: rest =>
      (s1 * 4 + s2 / 16) :: ((s2 % 16) * 16 + s3 / 4) :: ((s3 % 4) * 64 + s4) ::
        b64BytesOfSextets rest
  | [s1, s2, s3] => [s1 * 4 + s2 / 16, (s2 % 16) * 16 + s3 / 4]
  | [s1, s2] => [s1 * 4 + s2 / 16]
  | [_] => []
  | [] => []

/-- Node's forgiving base64 decode of a string to bytes. -/
def b64DecodeForgiving (s : String) : List Nat :=
  b64BytesOfSextets (s.data.filterMap b64ForgivingSextet)

/-- The Unicode replacement character. -/
def replacementChar : Char := Char.ofNat 0xFFFD

/-- Is `b` a UTF-8 continuation byte? -/
def utf8Cont (b : Nat) : Bool := 0x80 ≤ b && b < 0xC0

/-- UTF-8 decoding of a byte list; ill-formed sequences become replacement
characters.  The fuel (first argument) only serves structural recursion:
each step consumes at least one byte, so starting the fuel at the list
length never exhausts it. -/
def utf8DecodeGo : Nat → List Nat → List Char
  | 0, _ => []
  | _ + 1, [] => []
  | fuel + 1, b1 :: rest =>
    if b1 < 0x80 then Char.ofNat b1 :: utf8DecodeGo fuel rest
    else if b1 < 0xC2 then replacementChar :: utf8DecodeGo fuel rest
    else if b1 < 0xE0 then
      match rest with
      | b2 :: rest2 =>
          if utf8Cont b2 then
            Char.ofNat ((b1 - 0xC0) * 64 + (b2 - 0x80)) :: utf8DecodeGo fuel rest2
          else replacementChar :: utf8DecodeGo fuel (b2 :: rest2)
      | [] => [replacementChar]
    else if b1 < 0xF0 then
      match rest with
      | b2 :: b3 :: rest3 =>
          if utf8Cont b2 && utf8Cont b3 then
            let v := (b1 - 0xE0) * 4096 + (b2 - 0x80) * 64 + (b3 - 0x80)
            (if 0xD800 ≤ v ∧ v < 0xE000 then replacementChar else Char.ofNat v) ::
              utf8DecodeGo fuel rest3
          else replacementChar :: utf8DecodeGo fuel (b2 :: b3 :: rest3)
      | _ => [replacementChar]
    else if b1 < 0xF5 then
      match rest with
      | b2 :: b3 :: b4 :: rest4 =>
          if utf8Cont b2 && utf8Cont b3 && utf8Cont b4 then
            let v := (b1 - 0xF0) * 262144 + (b2 - 0x80) * 4096 + (b3 - 0x80) * 64 + (b4 - 0x80)
            (if v < 0x110000 then Char.ofNat v else replacementChar) :: utf8DecodeGo fuel rest4
          else replacementChar :: utf8DecodeGo fuel (b2 :: b3 :: b4 :: rest4)
      | _ => [replacementChar]
    else replacementChar :: utf8DecodeGo fuel rest

/-- UTF-8 decoding of a byte list. -/
def utf8Decode (l : List Nat) : List Char :=
  utf8DecodeGo l.length l

/-- `Buffer.from(data, "base64").toString("utf-8")`: the decoded text of a
piece of Gmail body data. -/
def decodeB64Utf8 (data : String) : String :=
  String.mk (utf8Decode (b64DecodeForgiving data))

/-! ## MCP value shapes and error taxonomy -/

/-- One item of a tool result's `content` array. -/
structure ContentItem where
  type : String
  text : String
deriving Repr, DecidableEq

/-- A tool call result: `{ content: [{ type, text }] }`. -/
structure ToolResult where
  content : List ContentItem
deriving Repr, DecidableEq

/-- One item of a resource result's `contents` array. -/
structure ResourceContent where
  uri : String
  mimeType : String
  text : String
deriving Repr, DecidableEq

/-- A resource read result: `{ contents: [{ uri, mimeType, text }] }`. -/
structure ResourceResult where
  contents : List ResourceContent
deriving Repr, DecidableEq

/-- Wrap a JSON-serialized payload as the single text content item every
tool handler returns. -/
def textResult (text : String) : ToolResult :=
  { content := [{ type := "text", text := text }] }

/-- The error taxonomy of the spec.  The TS code throws `Error` objects
distinguished only by message; the constructor records which kind of
failure produced the message (carried verbatim). -/
inductive McpError where
  | notConfigured (msg : String)
  | unknownTool (msg : String)
  | unknownResource (msg : String)
  | wrongOperationKind (msg : String)
  | backendFailure (msg : String)
deriving Repr, DecidableEq

/-- The message text of an error. -/
def McpError.message : McpError → String
  | .notConfigured m => m
  | .unknownTool m => m
  | .unknownResource m => m
  | .wrongOperationKind m => m
  | .backendFailure m => m

/-- Re-throw with a context prefix, as the adapters' `catch` blocks do
(`throw new Error(prefix + message)`); the taxonomy kind is preserved. -/
def McpError.wrap (ctxMsg : String) : McpError → McpError
  | .notConfigured m => .notConfigured (ctxMsg ++ m)
  | .unknownTool m => .unknownTool (ctxMsg ++ m)
  | .unknownResource m => .unknownResource (ctxMsg ++ m)
  | .wrongOperationKind m => .wrongOperationKind (ctxMsg ++ m)
  | .backendFailure m => .backendFailure (ctxMsg ++ m)

/-- Apply the adapters' catch-and-rewrap to a tool outcome. -/
def wrapError (ctxMsg : String) :
    Except McpError ToolResult → Except McpError ToolResult
  | .ok r => .ok r
  | .error e => .error (e.wrap ctxMsg)

/-- A tool descriptor of the static catalog. -/
structure ToolDescriptor where
  name : String
  description : String
  inputSchema : Json
deriving Repr

/-- The dynamic `Record<string, unknown>` argument bag of a tool call,
restricted to the fields the adapters destructure.  Absent fields are
`none`; the TS casts (`args as unknown as XArgs`) are unchecked, so each
tool reads just the fields below. -/
structure ArgBag where
  query : Option String := none
  params : Option (List String) := none
  schema : Option String := none
  tableName : Option String := none
  maxResults : Option Int := none
  labelIds : Option (List String) := none
  messageId : Option String := none
  format : Option String := none
  «to» : Option String := none
  subject : Option String := none
  body : Option String := none
  htmlBody : Option String := none
  cc : Option String := none
  bcc : Option String := none
deriving Repr

/-- An empty argument bag. -/
def emptyBag : ArgBag := {}

/-! ## Gmail adapter (`src/services/gmail.service.ts`) -/

/-- One entry of the messages list response (`{ id?, threadId? }`). -/
structure GmailMessageItem where
  id : Option String := none
  threadId : Option String := none
deriving Repr

/-- A message header (`{ name?, value? }`). -/
structure GmailHeader where
  name : Option String := none
  value : Option String := none
deriving Repr

/-- A message body (`{ data?: string }`). -/
structure GmailBody where
  data : Option String := none
deriving Repr

/-- A MIME part (`{ body?: { data? } }`). -/
structure GmailMessagePart where
  body : Option GmailBody := none
deriving Repr

/-- The payload of a fetched message. -/
structure GmailPayload where
  headers : Option (List GmailHeader) := none
  body : Option GmailBody := none
  parts : Option (List GmailMessagePart) := none
deriving Repr

/-- A fetched message (`users.messages.get` response data). -/
structure GmailMessage where
  id : Option String := none
  threadId : Option String := none
  labelIds : Option (List String) := none
  snippet : Option String := none
  payload : Option GmailPayload := none
deriving Repr

/-- `users.messages.send` response data. -/
structure GmailSendResponse where
  id : Option String := none
  threadId : Option String := none
deriving Repr

/-- The vendor Gmail client, modelled as pure response functions; `Except`
errors are the vendor call rejections. -/
structure GmailBackend where
  listMessages : Option String → Int → Option (List String) →
    Except String (Option (List GmailMessageItem))
  getMessage : String → String → Except String GmailMessage
  send : String → Except String GmailSendResponse
  listLabels : Except String (Option (List Json))

/-- One vendor API call submitted by the Gmail adapter (the trace records
every backend operation attempted). -/
inductive GmailOp where
  | listMessages (q : Option String) (maxResults : Int) (labelIds : Option (List String))
  | getMessage (id : String) (format : String)
  | send (raw : String)
  | listLabels
deriving Repr, DecidableEq

/-- `gmail_list_emails` arguments. -/
structure ListEmailsArgs where
  query : Option String := none
  maxResults : Option Int := none
  labelIds : Option (List String) := none
deriving Repr

/-- `gmail_read_email` arguments. -/
structure ReadEmailArgs where
  messageId : String
  format : Option String := none
deriving Repr

/-- `gmail_send_email` arguments (`to`, `subject`, `body` required by the
schema; the rest optional). -/
structure SendEmailArgs where
  «to» : String
  subject : String
  body : String
  htmlBody : Option String := none
  cc : Option String := none
  bcc : Option String := none
deriving Repr

/-- The JSON array `listEmails` serializes: each message mapped to
`{ id: msg.id || null, threadId: msg.threadId || null }`. -/
def emailListJson (messages : List GmailMessageItem) : Json :=
  .arr (messages.map fun msg =>
    .obj [("id", Json.ofOptStr (jsOrNullStr msg.id)),
          ("threadId", Json.ofOptStr (jsOrNullStr msg.threadId))])

/-- `listEmails`: defaults `maxResults` to 10, calls the vendor list API,
and returns the id/threadId pairs as pretty-printed JSON text. -/
def gmailListEmails (g : GmailBackend) (args : ListEmailsArgs) :
    List GmailOp × Except McpError ToolResult :=
  let maxResults := args.maxResults.getD 10
  ([.listMessages args.query maxResults args.labelIds],
    match g.listMessages args.query maxResults args.labelIds with
    | .error e => .error (.backendFailure e)
    | .ok data =>
        let messages := data.getD []
        .ok (textResult (Json.stringify2 (emailListJson messages))))

/-- Insert into a JS object used as a string map: an existing key keeps its
position and is overwritten, a new key is appended. -/
def jsRecordInsert (m : List (String × String)) (k v : String) : List (String × String) :=
  if m.any (fun p => p.1 == k) then
    m.map fun p => if p.1 == k then (k, v) else p
  else m ++ [(k, v)]

/-- The header map `readEmail` builds: every header with truthy name and
value, keys lowercased, in encounter order. -/
def buildHeaderMap (headers : List GmailHeader) : List (String × String) :=
  headers.foldl (fun m h =>
    match h.name, h.value with
    | some n, some v => if n ≠ "" ∧ v ≠ "" then jsRecordInsert m (jsToLower n) v else m
    | _, _ => m) []

/-- The `EmailData` record `readEmail` assembles. -/
structure EmailData where
  id : Option String
  threadId : Option String
  labelIds : Option (List String)
  snippet : Option String
  headers : Option (List (String × String)) := none
  body : Option String := none
deriving Repr

/-- `readEmail`'s parsing of a fetched message into `EmailData`: nullable
passthrough fields, the lowercased header map when headers are present,
and the body: the top-level `payload.body.data` decoded when truthy, else
all truthy part bodies decoded and joined with `"\n---\n"` when `parts`
is present. -/
def buildEmailData (message : GmailMessage) : EmailData :=
  let base : EmailData :=
    { id := jsOrNullStr message.id
      threadId := jsOrNullStr message.threadId
      labelIds := message.labelIds
      snippet := jsOrNullStr message.snippet }
  let withHeaders :=
    match message.payload with
    | some pl =>
        match pl.headers with
        | some hs => { base with headers := some (buildHeaderMap hs) }
        | none => base
    | none => base
  match message.payload with
  | none => withHeaders
  | some pl =>
      if strTruthy (pl.body.bind GmailBody.data) then
        { withHeaders with
            body := some (decodeB64Utf8 ((pl.body.bind GmailBody.data).getD "")) }
      else
        match pl.parts with
        | some parts =>
            { withHeaders with
                body := some (String.intercalate "\n---\n"
                  (parts.filterMap fun part =>
                    let d := part.body.bind GmailBody.data
                    if strTruthy d then some (decodeB64Utf8 (d.getD "")) else none)) }
        | none => withHeaders

/-- The JSON object `readEmail` serializes (fields set conditionally are
omitted when absent, like `JSON.stringify` omits unset properties). -/
def emailDataJson (d : EmailData) : Json :=
  .obj ([("id", Json.ofOptStr d.id),
         ("threadId", Json.ofOptStr d.threadId),
         ("labelIds", match d.labelIds with
           | none => Json.null
           | some ls => .arr (ls.map Json.str)),
         ("snippet", Json.ofOptStr d.snippet)]
    ++ (match d.headers with
        | none => []
        | some hs => [("headers", Json.obj (hs.map fun p => (p.1, Json.str p.2)))])
    ++ (match d.body with
        | none => []
        | some b => [("body", Json.str b)]))

/-- `readEmail`: defaults `format` to `"full"`, fetches the message, and
returns the assembled `EmailData` as pretty-printed JSON text. -/
def gmailReadEmail (g : GmailBackend) (args : ReadEmailArgs) :
    List GmailOp × Except McpError ToolResult :=
  let format := args.format.getD "full"
  ([.getMessage args.messageId format],
    match g.getMessage args.messageId format with
    | .error e => .error (.backendFailure e)
    | .ok message => .ok (textResult (Json.stringify2 (emailDataJson (buildEmailData message)))))

/-- The seven candidate lines of the raw message `sendEmail` assembles,
before empty lines are filtered out: To, conditional Cc/Bcc, Subject,
Content-Type, the blank separator, and the chosen body (`htmlBody || body`). -/
def sendEmailCandidateLines (a : SendEmailArgs) : List String :=
  let toLine := "To: " ++ a.«to»
  let ccLine := if strTruthy a.cc then "Cc: " ++ a.cc.getD "" else ""
  let bccLine := if strTruthy a.bcc then "Bcc: " ++ a.bcc.getD "" else ""
  let subjectLine := "Subject: " ++ a.subject
  let contentType := if strTruthy a.htmlBody then "text/html" else "text/plain"
  let emailBody := jsOrStr a.htmlBody a.body
  [toLine, ccLine, bccLine, subjectLine, "Content-Type: " ++ contentType ++ "; charset=utf-8",
    "", emailBody]

/-- The lines actually joined: `.filter((line) => line !== "")`. -/
def sendEmailLines (a : SendEmailArgs) : List String :=
  (sendEmailCandidateLines a).filter (fun line => line != "")

/-- The raw message: non-empty lines joined with CRLF. -/
def sendEmailRawMessage (a : SendEmailArgs) : String :=
  String.intercalate "\r\n" (sendEmailLines a)

/-- The submitted payload: UTF-8 bytes of the raw message, base64 encoded,
`+`/`/` replaced by `-`/`_`, trailing `=` stripped. -/
def sendEmailEncoded (a : SendEmailArgs) : String :=
  b64UrlEncodeBytes (utf8Encode (sendEmailRawMessage a))

/-- `sendEmail`: builds and submits the encoded message, then reports
`{ success, messageId, threadId }` (ids are `undefined`-omitted by
`JSON.stringify`, so absent fields are dropped). -/
def gmailSendEmail (g : GmailBackend) (a : SendEmailArgs) :
    List GmailOp × Except McpError ToolResult :=
  let encodedMessage := sendEmailEncoded a
  ([.send encodedMessage],
    match g.send encodedMessage with
    | .error e => .error (.backendFailure e)
    | .ok resp =>
        .ok (textResult (Json.stringify2 (.obj ([("success", .bool true)]
          ++ (match resp.id with | none => [] | some i => [("messageId", .str i)])
          ++ (match resp.threadId with | none => [] | some t => [("threadId", .str t)]))))))

/-- `getLabels`: returns the vendor label list (or `[]`) verbatim as JSON. -/
def gmailGetLabels (g : GmailBackend) : List GmailOp × Except McpError ToolResult :=
  ([.listLabels],
    match g.listLabels with
    | .error e => .error (.backendFailure e)
    | .ok labels => .ok (textResult (Json.stringify2 (.arr (labels.getD [])))))

/-- The static Gmail tool catalog. -/
def gmailToolCatalog : List ToolDescriptor :=
  [{ name := "gmail_list_emails"
     description := "List emails from Gmail inbox. Can filter by query, maxResults, and labelIds."
     inputSchema := .obj [("type", .str "object"),
       ("properties", .obj [
         ("query", .obj [("type", .str "string"),
           ("description", .str "Search query string (e.g., \"from:example@gmail.com subject:test\")")]),
         ("maxResults", .obj [("type", .str "number"),
           ("description", .str "Maximum number of emails to return (default: 10)"),
           ("default", .num 10)]),
         ("labelIds", .obj [("type", .str "array"),
           ("items", .obj [("type", .str "string")]),
           ("description", .str "Array of label IDs to filter by (e.g., [\"INBOX\", \"UNREAD\"])")])])] },
   { name := "gmail_read_email"
     description := "Read a specific email by its message ID"
     inputSchema := .obj [("type", .str "object"),
       ("properties", .obj [
         ("messageId", .obj [("type", .str "string"),
           ("description", .str "The ID of the email message to read")]),
         ("format", .obj [("type", .str "string"),
           ("enum", .arr [.str "full", .str "metadata", .str "minimal", .str "raw"]),
           ("description", .str "Format of the email response (default: full)"),
           ("default", .str "full")])]),
       ("required", .arr [.str "messageId"])] },
   { name := "gmail_send_email"
     description := "Send an email via Gmail"
     inputSchema := .obj [("type", .str "object"),
       ("properties", .obj [
         ("to", .obj [("type", .str "string"), ("description", .str "Recipient email address")]),
         ("subject", .obj [("type", .str "string"), ("description", .str "Email subject")]),
         ("body", .obj [("type", .str "string"), ("description", .str "Email body (plain text)")]),
         ("htmlBody", .obj [("type", .str "string"),
           ("description", .str "Email body (HTML, optional)")]),
         ("cc", .obj [("type", .str "string"), ("description", .str "CC email address (optional)")]),
         ("bcc", .obj [("type", .str "string"),
           ("description", .str "BCC email address (optional)")])]),
       ("required", .arr [.str "to", .str "subject", .str "body"])] },
   { name := "gmail_get_labels"
     description := "Get list of all Gmail labels"
     inputSchema := .obj [("type", .str "object"), ("properties", .obj [])] }]

/-- `getTools` of the Gmail service: empty when the client is absent
(unconfigured), the static catalog otherwise. -/
def gmailGetTools (gmail : Option GmailBackend) : List ToolDescriptor :=
  match gmail with
  | none => []
  | some _ => gmailToolCatalog

/-- The unchecked TS casts of the argument bag to the per-tool argument
records (`args as unknown as XArgs`): each tool reads just its fields.
(A missing required field crashes the TS at the point of use; the claims
only exercise bags carrying the required fields.) -/
def toListEmailsArgs (b : ArgBag) : ListEmailsArgs :=
  { query := b.query, maxResults := b.maxResults, labelIds := b.labelIds }

/-- Cast of the bag to `ReadEmailArgs`. -/
def toReadEmailArgs (b : ArgBag) : ReadEmailArgs :=
  { messageId := b.messageId.getD "", format := b.format }

/-- Cast of the bag to `SendEmailArgs`. -/
def toSendEmailArgs (b : ArgBag) : SendEmailArgs :=
  { «to» := b.«to».getD "", subject := b.subject.getD "", body := b.body.getD ""
    htmlBody := b.htmlBody, cc := b.cc, bcc := b.bcc }

/-- `GmailService.handleTool`: fails with the not-configured error before
anything else when the client is absent; otherwise dispatches on the tool
name, wrapping any failure with the adapter context prefix. -/
def gmailHandleTool (gmail : Option GmailBackend) (name : String) (args : ArgBag) :
    List GmailOp × Except McpError ToolResult :=
  match gmail with
  | none =>
      ([], .error (.notConfigured
        "Gmail service not initialized. Please check your Gmail credentials."))
  | some g =>
      let (trace, result) :=
        match name with
        | "gmail_list_emails" => gmailListEmails g (toListEmailsArgs args)
        | "gmail_read_email" => gmailReadEmail g (toReadEmailArgs args)
        | "gmail_send_email" => gmailSendEmail g (toSendEmailArgs args)
        | "gmail_get_labels" => gmailGetLabels g
        | _ => ([], .error (.unknownTool ("Unknown Gmail tool: " ++ name)))
      (trace, wrapError "Gmail operation failed: " result)

/-- `GmailService.readResource`: `gmail://inbox` is served by calling
`listEmails` with `maxResults: 20` and wrapping its first content item's
text with the uri and the JSON mime type; other uris are unknown. -/
def gmailReadResource (gmail : GmailBackend) (uri : String) :
    List GmailOp × Except McpError ResourceResult :=
  if uri = "gmail://inbox" then
    let (trace, result) := gmailListEmails gmail { maxResults := some 20 }
    (trace,
      match result with
      | .error e => .error e
      | .ok emails =>
          .ok { contents := [⟨uri, "application/json",
            (emails.content.headD ⟨"text", ""⟩).text⟩] })
  else ([], .error (.unknownResource ("Unknown Gmail resource: " ++ uri)))

/-- `initializeGmail`: without client id and secret, or without a refresh
token, the client stays absent (unconfigured); otherwise the constructed
client `mk` is installed.  Credential strings are JS-truthy-tested. -/
def initGmail (clientId clientSecret refreshToken : Option String) (mk : GmailBackend) :
    Option GmailBackend :=
  if !(strTruthy clientId && strTruthy clientSecret) then none
  else if strTruthy refreshToken then some mk
  else none

/-! ## Postgres adapter (`src/services/postgres.service.ts`) -/

/-- One field descriptor of a driver query result. -/
structure PgField where
  name : String
  dataTypeID : Int
deriving Repr, DecidableEq

/-- A driver `QueryResult`: rows are arbitrary JSON-ish records,
`rowCount` may be null. -/
structure PgResult where
  rows : List Json
  rowCount : Option Int
  fields : List PgField
  command : String
deriving Repr

/-- The connection pool, modelled as a pure response function from a
statement and its parameters to the driver result (or a driver error). -/
def PgBackend : Type :=
  String → List String → Except String PgResult

/-- One operation the adapter performs against the pool. -/
inductive PgOp where
  | query (stmt : String) (params : List String)
  | endPool
deriving Repr, DecidableEq

/-- `postgres_query` / `postgres_execute` arguments. -/
structure QueryArgs where
  query : String
  params : Option (List String) := none
deriving Repr

/-- `postgres_get_tables` arguments. -/
structure GetTablesArgs where
  schema : Option String := none
deriving Repr

/-- `postgres_get_table_schema` arguments. -/
structure GetTableSchemaArgs where
  tableName : String
  schema : Option String := none
deriving Repr

/-- The static Postgres tool catalog. -/
def pgToolCatalog : List ToolDescriptor :=
  [{ name := "postgres_query"
     description := "Execute a SELECT query on PostgreSQL database. Returns read-only results."
     inputSchema := .obj [("type", .str "object"),
       ("properties", .obj [
         ("query", .obj [("type", .str "string"),
           ("description", .str "SQL SELECT query to execute")]),
         ("params", .obj [("type", .str "array"), ("items", .obj [("type", .str "string")]),
           ("description", .str "Optional parameters for parameterized query")])]),
       ("required", .arr [.str "query"])] },
   { name := "postgres_execute"
     description := "Execute a write operation (INSERT, UPDATE, DELETE) on PostgreSQL database."
     inputSchema := .obj [("type", .str "object"),
       ("properties", .obj [
         ("query", .obj [("type", .str "string"),
           ("description", .str "SQL query to execute (INSERT, UPDATE, DELETE)")]),
         ("params", .obj [("type", .str "array"), ("items", .obj [("type", .str "string")]),
           ("description", .str "Optional parameters for parameterized query")])]),
       ("required", .arr [.str "query"])] },
   { name := "postgres_get_tables"
     description := "Get list of all tables in the database"
     inputSchema := .obj [("type", .str "object"),
       ("properties", .obj [
         ("schema", .obj [("type", .str "string"),
           ("description", .str "Schema name (default: public)"),
           ("default", .str "public")])])] },
   { name := "postgres_get_table_schema"
     description := "Get schema information for a specific table"
     inputSchema := .obj [("type", .str "object"),
       ("properties", .obj [
         ("tableName", .obj [("type", .str "string"),
           ("description", .str "Name of the table")]),
         ("schema", .obj [("type", .str "string"),
           ("description", .str "Schema name (default: public)"),
           ("default", .str "public")])]),
       ("required", .arr [.str "tableName"])] }]

/-- `getTools` of the Postgres service: empty when the pool is absent. -/
def pgGetTools (pool : Option PgBackend) : List ToolDescriptor :=
  match pool with
  | none => []
  | some _ => pgToolCatalog

/-- The message of `postgres_query`'s statement-kind rejection. -/
def pgQueryRejectMsg : String :=
  "postgres_query only accepts SELECT queries. Use postgres_execute for write operations."

/-- The message of `postgres_execute`'s statement-kind rejection. -/
def pgExecuteRejectMsg : String :=
  "postgres_execute is for write operations. Use postgres_query for SELECT queries."

/-- The JSON response of `postgres_query`:
`{ rows, rowCount: result.rowCount ?? 0, fields: [{name, dataTypeID}] }`. -/
def queryResponseJson (r : PgResult) : Json :=
  .obj [("rows", .arr r.rows),
        ("rowCount", .num (r.rowCount.getD 0)),
        ("fields", .arr (r.fields.map fun f =>
          .obj [("name", .str f.name), ("dataTypeID", .num f.dataTypeID)]))]

/-- `query`: rejects any statement whose trimmed uppercased text does not
start with `SELECT`, before the pool is touched; otherwise submits it. -/
def pgQuery (pool : PgBackend) (args : QueryArgs) :
    List PgOp × Except McpError ToolResult :=
  let params := args.params.getD []
  let trimmedQuery := jsToUpper (jsTrim args.query)
  if !jsStartsWith trimmedQuery "SELECT" then
    ([], .error (.wrongOperationKind pgQueryRejectMsg))
  else
    ([.query args.query params],
      match pool args.query params with
      | .error e => .error (.backendFailure e)
      | .ok r => .ok (textResult (Json.stringify2 (queryResponseJson r))))

/-- The JSON response of `postgres_execute`:
`{ success: true, rowCount, command }` (`rowCount` may be null). -/
def executeResponseJson (r : PgResult) : Json :=
  .obj [("success", .bool true),
        ("rowCount", match r.rowCount with | none => Json.null | some n => .num n),
        ("command", .str r.command)]

/-- `execute`: rejects any statement whose trimmed uppercased text does
start with `SELECT`, before the pool is touched; otherwise submits it. -/
def pgExecute (pool : PgBackend) (args : QueryArgs) :
    List PgOp × Except McpError ToolResult :=
  let params := args.params.getD []
  let trimmedQuery := jsToUpper (jsTrim args.query)
  if jsStartsWith trimmedQuery "SELECT" then
    ([], .error (.wrongOperationKind pgExecuteRejectMsg))
  else
    ([.query args.query params],
      match pool args.query params with
      | .error e => .error (.backendFailure e)
      | .ok r => .ok (textResult (Json.stringify2 (executeResponseJson r))))

/-- The catalog statement of `getTables` (the template literal verbatim). -/
def pgGetTablesStatement : String :=
  "\n      SELECT table_name, table_type\n      FROM information_schema.tables\n      WHERE table_schema = $1\n      ORDER BY table_name;\n    "

/-- `getTables`: defaults the schema to `"public"` and returns the catalog
rows verbatim as JSON. -/
def pgGetTables (pool : PgBackend) (args : GetTablesArgs) :
    List PgOp × Except McpError ToolResult :=
  let schema := args.schema.getD "public"
  ([.query pgGetTablesStatement [schema]],
    match pool pgGetTablesStatement [schema] with
    | .error e => .error (.backendFailure e)
    | .ok r => .ok (textResult (Json.stringify2 (.arr r.rows))))

/-- The catalog statement of `getTableSchema` (the template literal
verbatim). -/
def pgGetTableSchemaStatement : String :=
  "\n      SELECT\n        column_name,\n        data_type,\n        is_nullable,\n        column_default,\n        character_maximum_length,\n        numeric_precision,\n        numeric_scale\n      FROM information_schema.columns\n      WHERE table_schema = $1 AND table_name = $2\n      ORDER BY ordinal_position;\n    "

/-- `getTableSchema`: defaults the schema to `"public"` and returns the
column metadata rows verbatim as JSON. -/
def pgGetTableSchema (pool : PgBackend) (args : GetTableSchemaArgs) :
    List PgOp × Except McpError ToolResult :=
  let schema := args.schema.getD "public"
  ([.query pgGetTableSchemaStatement [schema, args.tableName]],
    match pool pgGetTableSchemaStatement [schema, args.tableName] with
    | .error e => .error (.backendFailure e)
    | .ok r => .ok (textResult (Json.stringify2 (.arr r.rows))))

/-- Casts of the argument bag to the Postgres argument records. -/
def toQueryArgs (b : ArgBag) : QueryArgs :=
  { query := b.query.getD "", params := b.params }

/-- Cast of the bag to `GetTablesArgs`. -/
def toGetTablesArgs (b : ArgBag) : GetTablesArgs :=
  { schema := b.schema }

/-- Cast of the bag to `GetTableSchemaArgs`. -/
def toGetTableSchemaArgs (b : ArgBag) : GetTableSchemaArgs :=
  { tableName := b.tableName.getD "", schema := b.schema }

/-- `PostgresService.handleTool`: fails with the not-configured error
before anything else when the pool is absent; otherwise dispatches on the
tool name, wrapping any failure with the adapter context prefix. -/
def pgHandleTool (pool : Option PgBackend) (name : String) (args : ArgBag) :
    List PgOp × Except McpError ToolResult :=
  match pool with
  | none =>
      ([], .error (.notConfigured
        "PostgreSQL service not initialized. Please check your database credentials."))
  | some p =>
      let (trace, result) :=
        match name with
        | "postgres_query" => pgQuery p (toQueryArgs args)
        | "postgres_execute" => pgExecute p (toQueryArgs args)
        | "postgres_get_tables" => pgGetTables p (toGetTablesArgs args)
        | "postgres_get_table_schema" => pgGetTableSchema p (toGetTableSchemaArgs args)
        | _ => ([], .error (.unknownTool ("Unknown PostgreSQL tool: " ++ name)))
      (trace, wrapError "PostgreSQL operation failed: " result)

/-- `PostgresService.readResource`: probes `postgres://connection` with
`SELECT 1` when a pool exists and reports the connection status together
with the configured database and host (the resolved environment values
are passed in).  Other uris are unknown. -/
def pgReadResource (pool : Option PgBackend) (database host : String) (uri : String) :
    List PgOp × Except McpError ResourceResult :=
  if uri = "postgres://connection" then
    let (trace, status) :=
      match pool with
      | none => ([], "disconnected")
      | some p =>
          ([PgOp.query "SELECT 1" []],
            match p "SELECT 1" [] with
            | .ok _ => "connected"
            | .error _ => "error")
    (trace,
      .ok { contents := [⟨uri, "application/json",
        Json.stringify2 (.obj [("status", .str status), ("database", .str database),
          ("host", .str host)])⟩] })
  else ([], .error (.unknownResource ("Unknown PostgreSQL resource: " ++ uri)))

/-- `PostgresService.cleanup`: drains the pool when present (`pool.end()`)
and nulls the handle; a second call finds no pool and does nothing. -/
def pgCleanup (pool : Option PgBackend) : List PgOp × Option PgBackend :=
  match pool with
  | some _ => ([.endPool], none)
  | none => ([], none)

/-- `initializePostgres`: without a password the pool stays absent
(unconfigured); otherwise the constructed pool `mk` is installed. -/
def initPg (password : Option String) (mk : PgBackend) : Option PgBackend :=
  if strTruthy password then some mk else none

/-! ## Dispatch router (`src/index.ts` `setupHandlers` and
`src/http-server.ts` `createMCPServer` — both bindings install the same
four handlers over the two shared service instances). -/

/-- `list_tools`: concatenates the two catalogs, Gmail first. -/
def listTools (gmail : Option GmailBackend) (pool : Option PgBackend) : List ToolDescriptor :=
  gmailGetTools gmail ++ pgGetTools pool

/-- `call_tool`: routes by name prefix, failing with the unknown-tool
error when the name matches neither prefix; the traces record every
backend operation either adapter attempted. -/
def callTool (gmail : Option GmailBackend) (pool : Option PgBackend)
    (name : String) (args : ArgBag) :
    List GmailOp × List PgOp × Except McpError ToolResult :=
  if jsStartsWith name "gmail_" then
    let (trace, result) := gmailHandleTool gmail name args
    (trace, [], result)
  else if jsStartsWith name "postgres_" then
    let (trace, result) := pgHandleTool pool name args
    ([], trace, result)
  else ([], [], .error (.unknownTool ("Unknown tool: " ++ name)))

/-- A resource descriptor of the static two-entry catalog. -/
structure ResourceDescriptor where
  uri : String
  name : String
  mimeType : String
  description : String
deriving Repr, DecidableEq

/-- `list_resources`: the static catalog, returned regardless of adapter
initialization state. -/
def listResources : List ResourceDescriptor :=
  [⟨"gmail://inbox", "Gmail Inbox", "application/json", "Access to Gmail inbox"⟩,
   ⟨"postgres://connection", "PostgreSQL Connection", "application/json",
     "PostgreSQL database connection status"⟩]

/-- `read_resource`: routes by uri scheme prefix.  The Gmail service's
resource handler needs a live client; per the adapter code a `null` client
would crash on use, and the claims only read Gmail resources on a
configured adapter, so the Gmail branch takes the installed backend. -/
def readResource (gmail : GmailBackend) (pool : Option PgBackend)
    (database host : String) (uri : String) :
    List GmailOp × List PgOp × Except McpError ResourceResult :=
  if jsStartsWith uri "gmail://" then
    let (trace, result) := gmailReadResource gmail uri
    (trace, [], result)
  else if jsStartsWith uri "postgres://" then
    let (trace, result) := pgReadResource pool database host uri
    ([], trace, result)
  else ([], [], .error (.unknownResource ("Unknown resource: " ++ uri)))

/-! ## Claim-side definitions

These restate, in the words of the spec, what the claims expect; the
theorems compare them with the embedded code. -/

/-- The lines the send-email claim expects the decoded payload to consist
of: the To line, the Cc and Bcc lines when given, the Subject line, the
Content-Type line (`text/html` when `htmlBody` is given, else
`text/plain`), and the chosen body content (`htmlBody` over `body`). -/
def claimedSendLines (a : SendEmailArgs) : List String :=
  ["To: " ++ a.«to»]
  ++ (if strTruthy a.cc then ["Cc: " ++ a.cc.getD ""] else [])
  ++ (if strTruthy a.bcc then ["Bcc: " ++ a.bcc.getD ""] else [])
  ++ ["Subject: " ++ a.subject,
      "Content-Type: " ++ (if strTruthy a.htmlBody then "text/html" else "text/plain")
        ++ "; charset=utf-8"]
  ++ (if jsOrStr a.htmlBody a.body == "" then [] else [jsOrStr a.htmlBody a.body])

/-- Modelled from the spec: reading `gmail://inbox` is equivalent to
calling the list tool with `maxResults = 20`, its formatted text payload
wrapped in a resource envelope carrying the resource's uri and the
`application/json` mime type. -/
def specInboxResource (g : GmailBackend) : List GmailOp × Except McpError ResourceResult :=
  let (trace, result) :=
    gmailListEmails g { query := none, maxResults := some 20, labelIds := none }
  (trace,
    match result with
    | .error e => .error e
    | .ok r =>
        .ok { contents := [⟨"gmail://inbox", "application/json",
          (r.content.headD ⟨"text", ""⟩).text⟩] })

/-- The `table_name` column of a returned row (used to state the ordering
of the `get_tables` result). -/
def rowTableName (r : Json) : String :=
  match r with
  | .obj fs =>
      match fs.find? (fun p => p.1 == "table_name") with
      | some (_, .str s) => s
      | _ => ""
  | _ => ""

/-- Lexicographic order on character lists. -/
def charListLe : List Char → List Char → Bool
  | [], _ => true
  | _ :: _, [] => false
  | a :: as, b :: bs =>
      if a.toNat < b.toNat then true
      else if b.toNat < a.toNat then false
      else charListLe as bs

/-- Boolean string order (lexicographic by code point). -/
def strLeB (a b : String) : Bool :=
  charListLe a.data b.data

/-- Are the rows sorted ascending by their `table_name` column? -/
def rowsSortedByTableName : List Json → Bool
  | [] => true
  | [_] => true
  | a :: b :: rest => strLeB (rowTableName a) (rowTableName b) && rowsSortedByTableName (b :: rest)

/-- A backend honors the catalog ordering when every successful response
to a statement ordered by `table_name` has its rows sorted by that column
ascending (what a SQL engine guarantees for an `ORDER BY table_name`
query). -/
def HonorsTableOrder (pool : PgBackend) : Prop :=
  ∀ stmt ps r, pool stmt ps = .ok r →
    jsEndsWith (jsTrim stmt) "ORDER BY table_name;" = true →
    rowsSortedByTableName r.rows = true

/-! ## Concrete backends used to witness the theorems. -/

/-- A Gmail backend with one inbox message and successful calls. -/
def demoGmailBackend : GmailBackend where
  listMessages := fun _ _ _ => .ok (some [{ id := some "m1", threadId := some "t1" }])
  getMessage := fun _ _ => .ok {}
  send := fun _ => .ok { id := some "sent1", threadId := some "t1" }
  listLabels := .ok (some [])

/-- A driver result with no rows. -/
def demoPgResult : PgResult :=
  { rows := [], rowCount := some 0, fields := [], command := "SELECT" }

/-- A pool answering every statement with the empty result. -/
def demoPgBackend : PgBackend :=
  fun _ _ => .ok demoPgResult

/-- A catalog result with two tables, sorted by name. -/
def demoTablesResult : PgResult :=
  { rows := [.obj [("table_name", .str "orders"), ("table_type", .str "BASE TABLE")],
             .obj [("table_name", .str "users"), ("table_type", .str "BASE TABLE")]]
    rowCount := some 2, fields := [], command := "SELECT" }

/-- A pool answering every statement with the two-table catalog result. -/
def demoTablesBackend : PgBackend :=
  fun _ _ => .ok demoTablesResult

/-- A fetched message with no top-level body data and two body-bearing
MIME parts (`"aGk"` and `"eW8"` are base64 of `"hi"` and `"yo"`). -/
def demoPartsMessage : GmailMessage :=
  { payload := some { parts := some [{ body := some { data := some "aGk" } },
                                     { body := some { data := some "eW8" } }] } }

/-- A fetched message whose payload carries top-level body data. -/
def demoTopBodyMessage : GmailMessage :=
  { payload := some { body := some { data := some "aGk" } } }

/-- Send arguments whose chosen body is empty. -/
def demoEmptyBodyArgs : SendEmailArgs :=
  { «to» := "a@b.c", subject := "Hi", body := "" }

/-! ## Base64url round-trip -/

/-- Decoding inverts encoding on a single url-safe alphabet character. -/
theorem b64SextetDecode_replUrlChar_b64Char : ∀ n < 64,
    b64SextetDecode (replUrlChar (b64Char n)) = some n := by
  decide

/-- No alphabet character is the padding character. -/
theorem replUrlChar_b64Char_ne_eq : ∀ n < 64, replUrlChar (b64Char n) ≠ '=' := by
  decide

/-- The padding character is untouched by url replacement. -/
theorem replUrlChar_eq : replUrlChar '=' = '=' := by
  decide

/-- Stripping trailing padding walks over non-padding heads. -/
theorem stripTrailingEq_cons_of_ne {c : Char} (h : c ≠ '=') (l : List Char) :
    stripTrailingEq (c :: l) = c :: stripTrailingEq l := by
  cases hl : stripTrailingEq l with
  | nil => rw [stripTrailingEq, hl]; simp [h]
  | cons d ds => rw [stripTrailingEq, hl]

/-- Every Unicode scalar value is below `0x110000`. -/
theorem char_toNat_lt (c : Char) : c.toNat < 0x110000 := by
  rcases c with ⟨val, valid⟩
  rcases valid with h | ⟨_, h2⟩
  · exact Nat.lt_trans h (by norm_num)
  · exact h2

/-- UTF-8 encoding produces bytes. -/
theorem utf8EncodeChar_lt (c : Char) : ∀ b ∈ utf8EncodeChar c, b < 256 := by
  intro b hb
  have hc : c.toNat < 0x110000 := char_toNat_lt c
  unfold utf8EncodeChar at hb
  by_cases h1 : c.toNat < 128
  · simp [h1] at hb; omega
  · by_cases h2 : c.toNat < 2048
    · simp [h1, h2] at hb
      rcases hb with rfl | rfl <;> omega
    · by_cases h3 : c.toNat < 65536
      · simp [h1, h2, h3] at hb
        rcases hb with rfl | rfl | rfl <;> omega
      · simp [h1, h2, h3] at hb
        rcases hb with rfl | rfl | rfl | rfl <;> omega

/-- UTF-8 encoding of a string produces bytes. -/
theorem utf8Encode_lt (s : String) : ∀ b ∈ utf8Encode s, b < 256 := by
  intro b hb
  unfold utf8Encode at hb
  rw [List.mem_flatten] at hb
  obtain ⟨l, hl, hbl⟩ := hb
  rw [List.mem_map] at hl
  obtain ⟨c, _, rfl⟩ := hl
  exact utf8EncodeChar_lt c b hbl

/-- Strong induction core of the round-trip: decoding the url-safed,
padding-stripped base64 encoding of a byte list recovers the bytes. -/
theorem b64UrlDecodeChars_encode_aux (n : Nat) : ∀ bytes : List Nat, bytes.length ≤ n →
    (∀ b ∈ bytes, b < 256) →
    b64UrlDecodeChars (stripTrailingEq (List.map replUrlChar (b64EncodeChars bytes))) =
      some bytes := by
  induction n with
  | zero =>
      intro bytes hlen _
      have hnil : bytes = [] := List.eq_nil_of_length_eq_zero (Nat.le_zero.mp hlen)
      subst hnil
      rfl
  | succ n ih =>
      intro bytes hlen hb
      match bytes with
      | [] => rfl
      | [b1] =>
          have h1 : b1 < 256 := hb b1 (by simp)
          have hs1 : b1 / 4 < 64 := by omega
          have hs2 : (b1 % 4) * 16 < 64 := by omega
          simp only [b64EncodeChars, List.map, replUrlChar_eq]
          rw [stripTrailingEq_cons_of_ne (replUrlChar_b64Char_ne_eq _ hs1),
              stripTrailingEq_cons_of_ne (replUrlChar_b64Char_ne_eq _ hs2)]
          have hstrip : stripTrailingEq ['=', '='] = [] := rfl
          rw [hstrip]
          simp only [b64UrlDecodeChars]
          rw [b64SextetDecode_replUrlChar_b64Char _ hs1, b64SextetDecode_replUrlChar_b64Char _ hs2]
          simp
          omega
      | [b1, b2] =>
          have h1 : b1 < 256 := hb b1 (by simp)
          have h2 : b2 < 256 := hb b2 (by simp)
          have hs1 : b1 / 4 < 64 := by omega
          have hs2 : (b1 % 4) * 16 + b2 / 16 < 64 := by omega
          have hs3 : (b2 % 16) * 4 < 64 := by omega
          simp only [b64EncodeChars, List.map, replUrlChar_eq]
          rw [stripTrailingEq_cons_of_ne (replUrlChar_b64Char_ne_eq _ hs1),
              stripTrailingEq_cons_of_ne (replUrlChar_b64Char_ne_eq _ hs2),
              stripTrailingEq_cons_of_ne (replUrlChar_b64Char_ne_eq _ hs3)]
          have hstrip : stripTrailingEq ['='] = [] := rfl
          rw [hstrip]
          simp only [b64UrlDecodeChars]
          rw [b64SextetDecode_replUrlChar_b64Char _ hs1, b64SextetDecode_replUrlChar_b64Char _ hs2,
              b64SextetDecode_replUrlChar_b64Char _ hs3]
          simp
          omega
      | b1 :: b2 :: b3 :: rest =>
          have h1 : b1 < 256 := hb b1 (by simp)
          have h2 : b2 < 256 := hb b2 (by simp)
          have h3 : b3 < 256 := hb b3 (by simp)
          have hs1 : b1 / 4 < 64 := by omega
          have hs2 : (b1 % 4) * 16 + b2 / 16 < 64 := by omega
          have hs3 : (b2 % 16) * 4 + b3 / 64 < 64 := by omega
          have hs4 : b3 % 64 < 64 := by omega
          have hrest : b64UrlDecodeChars
              (stripTrailingEq (List.map replUrlChar (b64EncodeChars rest))) = some rest := by
            refine ih rest ?_ (fun b hbmem => hb b (by simp [hbmem]))
            simp only [List.length_cons] at hlen
            omega
          simp only [b64EncodeChars, List.map]
          rw [stripTrailingEq_cons_of_ne (replUrlChar_b64Char_ne_eq _ hs1),
              stripTrailingEq_cons_of_ne (replUrlChar_b64Char_ne_eq _ hs2),
              stripTrailingEq_cons_of_ne (replUrlChar_b64Char_ne_eq _ hs3),
              stripTrailingEq_cons_of_ne (replUrlChar_b64Char_ne_eq _ hs4)]
          simp only [b64UrlDecodeChars]
          rw [b64SextetDecode_replUrlChar_b64Char _ hs1, b64SextetDecode_replUrlChar_b64Char _ hs2,
              b64SextetDecode_replUrlChar_b64Char _ hs3, b64SextetDecode_replUrlChar_b64Char _ hs4,
              hrest]
          simp
          omega

/-- The base64url round-trip, at the string level: decoding the encoding
of any byte list recovers the bytes. -/
theorem b64UrlDecodeString_encode (bytes : List Nat) (hb : ∀ b ∈ bytes, b < 256) :
    b64UrlDecodeString (b64UrlEncodeBytes bytes) = some bytes :=
  b64UrlDecodeChars_encode_aux bytes.length bytes (Nat.le_refl _) hb

/-! ## The raw message of `sendEmail` -/

/-- Appending to a non-empty string keeps it non-empty. -/
theorem strAppend_ne_empty {s : String} (t : String) (h : s ≠ "") : s ++ t ≠ "" := by
  intro he
  apply h
  have hd := congrArg String.data he
  rw [String.data_append] at hd
  exact String.ext (List.append_eq_nil.mp hd).1

/-- The filtered line list of `sendEmail` is exactly the claimed list:
To, Cc/Bcc when truthy, Subject, Content-Type, then the chosen body when
non-empty — with the blank separator removed by the filter. -/
theorem sendEmailLines_eq_claimed (a : SendEmailArgs) :
    sendEmailLines a = claimedSendLines a := by
  have hTo : (("To: " ++ a.«to») != "") = true := by
    rw [bne_iff_ne]; exact strAppend_ne_empty _ (by decide)
  have hCc : (("Cc: " ++ a.cc.getD "") != "") = true := by
    rw [bne_iff_ne]; exact strAppend_ne_empty _ (by decide)
  have hBcc : (("Bcc: " ++ a.bcc.getD "") != "") = true := by
    rw [bne_iff_ne]; exact strAppend_ne_empty _ (by decide)
  have hSub : (("Subject: " ++ a.subject) != "") = true := by
    rw [bne_iff_ne]; exact strAppend_ne_empty _ (by decide)
  have hCt : (("Content-Type: "
      ++ (if strTruthy a.htmlBody then "text/html" else "text/plain")
      ++ "; charset=utf-8") != "") = true := by
    rw [bne_iff_ne]
    exact strAppend_ne_empty _ (strAppend_ne_empty _ (by decide))
  unfold sendEmailLines sendEmailCandidateLines claimedSendLines
  cases hcc : strTruthy a.cc <;> cases hbcc : strTruthy a.bcc <;>
    cases hbody : (jsOrStr a.htmlBody a.body == "") <;>
      simp_all [List.filter_cons, bne]

/-! ## The claims -/

/-- C1: for every query string, if the trimmed, uppercased text does not
start with `SELECT`, then `postgres_execute` accepts it (submits the
statement to the pool, never raising the wrong-operation-kind error) and
`postgres_query` rejects it with the `WrongOperationKind` error without
touching the pool; conversely, if the text does start with `SELECT`,
`postgres_query` accepts and `postgres_execute` rejects. -/
theorem claim_C1_statement_kind_split (pool : PgBackend) (args : QueryArgs) :
    (jsStartsWith (jsToUpper (jsTrim args.query)) "SELECT" = false →
      pgQuery pool args = ([], .error (.wrongOperationKind pgQueryRejectMsg)) ∧
      (pgExecute pool args).1 = [PgOp.query args.query (args.params.getD [])] ∧
      ∀ m, (pgExecute pool args).2 ≠ .error (.wrongOperationKind m)) ∧
    (jsStartsWith (jsToUpper (jsTrim args.query)) "SELECT" = true →
      pgExecute pool args = ([], .error (.wrongOperationKind pgExecuteRejectMsg)) ∧
      (pgQuery pool args).1 = [PgOp.query args.query (args.params.getD [])] ∧
      ∀ m, (pgQuery pool args).2 ≠ .error (.wrongOperationKind m)) := by
  constructor
  · intro h
    refine ⟨by simp [pgQuery, h], by simp [pgExecute, h], fun m => ?_⟩
    simp [pgExecute, h]
    cases pool args.query (args.params.getD []) <;> simp
  · intro h
    refine ⟨by simp [pgExecute, h], by simp [pgQuery, h], fun m => ?_⟩
    simp [pgQuery, h]
    cases pool args.query (args.params.getD []) <;> simp

/-- C1 witness: a write statement is rejected by `postgres_query` and a
read statement by `postgres_execute`, at concrete inputs. -/
theorem claim_C1_statement_kind_split_witness :
    jsStartsWith (jsToUpper (jsTrim "DELETE FROM x")) "SELECT" = false ∧
    pgQuery demoPgBackend { query := "DELETE FROM x" } =
      ([], .error (.wrongOperationKind pgQueryRejectMsg)) ∧
    jsStartsWith (jsToUpper (jsTrim "  select 1")) "SELECT" = true ∧
    pgExecute demoPgBackend { query := "  select 1" } =
      ([], .error (.wrongOperationKind pgExecuteRejectMsg)) :=
  ⟨rfl,
   ((claim_C1_statement_kind_split demoPgBackend { query := "DELETE FROM x" }).1 rfl).1,
   rfl,
   ((claim_C1_statement_kind_split demoPgBackend { query := "  select 1" }).2 rfl).1⟩

/-- C6: calling `postgres_query` with `query = "DELETE FROM x"` fails with
the (context-wrapped) `WrongOperationKind` error and the trace of
statements submitted to the pool is empty: the rejection happens before
any statement reaches the database, whatever the pool would answer. -/
theorem claim_C6_delete_rejected_before_pool (pool : PgBackend) :
    pgHandleTool (some pool) "postgres_query" { query := some "DELETE FROM x" } =
      ([], .error (.wrongOperationKind
        ("PostgreSQL operation failed: " ++ pgQueryRejectMsg))) := by
  rfl

/-- C5: a tool name matching neither the `gmail_` nor the `postgres_`
prefix fails with the `UnknownTool` error regardless of the argument bag
and of either adapter's state, and neither adapter performs any backend
operation. -/
theorem claim_C5_unknown_tool (gmail : Option GmailBackend) (pool : Option PgBackend)
    (name : String) (args : ArgBag)
    (h1 : jsStartsWith name "gmail_" = false)
    (h2 : jsStartsWith name "postgres_" = false) :
    callTool gmail pool name args =
      ([], [], .error (.unknownTool ("Unknown tool: " ++ name))) := by
  unfold callTool
  rw [h1, h2]
  rfl

/-- C5 witness: `foo_bar` is rejected at a concrete input. -/
theorem claim_C5_unknown_tool_witness :
    callTool (some demoGmailBackend) (some demoPgBackend) "foo_bar" emptyBag =
      ([], [], .error (.unknownTool ("Unknown tool: " ++ "foo_bar"))) :=
  claim_C5_unknown_tool (some demoGmailBackend) (some demoPgBackend) "foo_bar" emptyBag rfl rfl

/-- A name with the `postgres_` prefix cannot also have the `gmail_`
prefix, so the router's first branch is not taken. -/
theorem startsWith_postgres_not_gmail (name : String)
    (h : jsStartsWith name "postgres_" = true) : jsStartsWith name "gmail_" = false := by
  unfold jsStartsWith at h ⊢
  have hp : "postgres_".data = 'p' :: "ostgres_".data := rfl
  have hg : "gmail_".data = 'g' :: "mail_".data := rfl
  rw [hp] at h
  rw [hg]
  cases hd : name.data with
  | nil => rw [hd] at h; exact absurd h (by decide)
  | cons c cs =>
      rw [hd] at h
      rw [List.isPrefixOf_cons₂] at h ⊢
      rw [Bool.and_eq_true] at h
      obtain ⟨hc, _⟩ := h
      obtain rfl : c = 'p' := (beq_iff_eq.mp hc).symm
      rw [show (('g' : Char) == 'p') = false from rfl]
      exact Bool.false_and _

/-- C4: an adapter left unconfigured (database without a password, email
without client credentials or refresh token) lists no tools while a
configured one lists a non-empty catalog, and every tool call routed to
the unconfigured adapter fails with the `NotConfigured` error with no
backend operation attempted. -/
theorem claim_C4_unconfigured_adapters :
    (∀ cs rt mk, initGmail none cs rt mk = none) ∧
    (∀ ci cs mk, initGmail ci cs none mk = none) ∧
    (∀ mk, initPg none mk = none) ∧
    gmailGetTools none = [] ∧ pgGetTools none = [] ∧
    (∀ g, gmailGetTools (some g) ≠ []) ∧
    (∀ p, pgGetTools (some p) ≠ []) ∧
    (∀ p, listTools none (some p) = pgGetTools (some p)) ∧
    (∀ g, listTools (some g) none = gmailGetTools (some g)) ∧
    (∀ pool name args, jsStartsWith name "gmail_" = true →
      callTool none pool name args = ([], [], .error (.notConfigured
        "Gmail service not initialized. Please check your Gmail credentials."))) ∧
    (∀ gmail name args, jsStartsWith name "postgres_" = true →
      callTool gmail none name args = ([], [], .error (.notConfigured
        "PostgreSQL service not initialized. Please check your database credentials."))) := by
  refine ⟨fun cs rt mk => by simp [initGmail, strTruthy],
    fun ci cs mk => by simp [initGmail, strTruthy],
    fun mk => by simp [initPg, strTruthy],
    rfl, rfl,
    fun g => by simp [gmailGetTools, gmailToolCatalog],
    fun p => by simp [pgGetTools, pgToolCatalog],
    fun p => rfl, fun g => by simp [listTools, pgGetTools],
    fun pool name args h => ?_, fun gmail name args h => ?_⟩
  · unfold callTool
    rw [h]
    rfl
  · unfold callTool
    cases hg : jsStartsWith name "gmail_"
    · rw [h]
      rfl
    · exact absurd (startsWith_postgres_not_gmail name h) (by simp [hg])

/-- C4 witness: with both adapters unconfigured, listing yields no tools
and concrete calls to either adapter's tools fail with `NotConfigured`. -/
theorem claim_C4_unconfigured_adapters_witness :
    callTool none (some demoPgBackend) "gmail_send_email" emptyBag =
      ([], [], .error (.notConfigured
        "Gmail service not initialized. Please check your Gmail credentials.")) ∧
    callTool (some demoGmailBackend) none "postgres_query" emptyBag =
      ([], [], .error (.notConfigured
        "PostgreSQL service not initialized. Please check your database credentials.")) :=
  ⟨(claim_C4_unconfigured_adapters.2.2.2.2.2.2.2.2.2.1) (some demoPgBackend)
      "gmail_send_email" emptyBag rfl,
   (claim_C4_unconfigured_adapters.2.2.2.2.2.2.2.2.2.2) (some demoGmailBackend)
      "postgres_query" emptyBag rfl⟩

/-- C10: `cleanup()` always leaves the pool handle null, and in that
state every tool call fails with `NotConfigured` with no backend
operation, `getTools` lists nothing, the connection resource reports
status `"disconnected"` without probing, and a second `cleanup()` is a
no-op performing no pool operation. -/
theorem claim_C10_cleanup_permanent :
    (∀ pool, (pgCleanup pool).2 = none) ∧
    (∀ pool, pgCleanup (some pool) = ([PgOp.endPool], none)) ∧
    (∀ name args, pgHandleTool none name args = ([], .error (.notConfigured
      "PostgreSQL service not initialized. Please check your database credentials."))) ∧
    pgGetTools none = [] ∧
    (∀ database host, pgReadResource none database host "postgres://connection" =
      ([], .ok { contents := [⟨"postgres://connection", "application/json",
        Json.stringify2 (.obj [("status", .str "disconnected"),
          ("database", .str database), ("host", .str host)])⟩] })) ∧
    pgCleanup none = ([], none) := by
  refine ⟨fun pool => ?_, fun pool => rfl, fun name args => rfl, rfl,
    fun database host => rfl, rfl⟩
  cases pool <;> rfl

/-- C7: `postgres_get_tables` with the schema omitted submits exactly the
catalog statement with parameter `"public"` and returns the backend's
rows verbatim; the statement's trimmed text ends in
`ORDER BY table_name;`, so a backend that honors that ordering returns
the rows sorted ascending by `table_name`. -/
theorem claim_C7_get_tables_default_schema (pool : PgBackend) (r : PgResult)
    (hord : HonorsTableOrder pool)
    (hresp : pool pgGetTablesStatement ["public"] = .ok r) :
    pgGetTables pool { schema := none } =
      ([PgOp.query pgGetTablesStatement ["public"]],
        .ok (textResult (Json.stringify2 (.arr r.rows)))) ∧
    rowsSortedByTableName r.rows = true ∧
    jsEndsWith (jsTrim pgGetTablesStatement) "ORDER BY table_name;" = true := by
  refine ⟨?_, hord _ _ _ hresp rfl, rfl⟩
  unfold pgGetTables
  simp [hresp]

/-- C7 witness: a concrete two-table backend, honoring the ordering,
yields the sorted rows. -/
theorem claim_C7_get_tables_default_schema_witness :
    pgGetTables demoTablesBackend { schema := none } =
      ([PgOp.query pgGetTablesStatement ["public"]],
        .ok (textResult (Json.stringify2 (.arr demoTablesResult.rows)))) ∧
    rowsSortedByTableName demoTablesResult.rows = true ∧
    jsEndsWith (jsTrim pgGetTablesStatement) "ORDER BY table_name;" = true := by
  have hord : HonorsTableOrder demoTablesBackend := by
    intro stmt ps r h _
    injection h with h
    subst h
    decide
  exact claim_C7_get_tables_default_schema demoTablesBackend demoTablesResult hord rfl

/-- C8: reading the resource `gmail://inbox` is the list tool at
`maxResults = 20`: the adapter-level read equals the spec-side
composition, and the router read wraps the same value. -/
theorem claim_C8_inbox_resource_refines_list (g : GmailBackend) :
    gmailReadResource g "gmail://inbox" = specInboxResource g ∧
    ∀ pool database host, readResource g pool database host "gmail://inbox" =
      ((specInboxResource g).1, [], (specInboxResource g).2) := by
  constructor
  · rfl
  · intro pool database host
    rfl

/-- C2: decoding the base64url payload `sendEmail` submits recovers the
UTF-8 bytes of exactly the claimed CRLF-joined lines: the To line, the Cc
and Bcc lines when given, the Subject line, the Content-Type line
(`text/html` when `htmlBody` is given, else `text/plain`), and the chosen
body content (`htmlBody` over `body`). -/
theorem claim_C2_send_payload_roundtrip (a : SendEmailArgs) :
    b64UrlDecodeString (sendEmailEncoded a) =
      some (utf8Encode (String.intercalate "\r\n" (claimedSendLines a))) := by
  have h : sendEmailRawMessage a = String.intercalate "\r\n" (claimedSendLines a) := by
    unfold sendEmailRawMessage
    rw [sendEmailLines_eq_claimed]
  rw [← h]
  unfold sendEmailEncoded
  exact b64UrlDecodeString_encode _ (utf8Encode_lt _)

/-- C3: when the payload carries no top-level body data, the body
`readEmail` reports is the decoded texts of the body-bearing parts joined
by `"\n---\n"` in their original order; when it does carry top-level body
data, the body is that single decoded payload. -/
theorem claim_C3_read_email_body (message : GmailMessage) (pl : GmailPayload)
    (hpl : message.payload = some pl) :
    (∀ parts, strTruthy (pl.body.bind GmailBody.data) = false → pl.parts = some parts →
      (buildEmailData message).body = some (String.intercalate "\n---\n"
        (parts.filterMap fun part =>
          let d := part.body.bind GmailBody.data
          if strTruthy d then some (decodeB64Utf8 (d.getD "")) else none))) ∧
    (∀ d, pl.body.bind GmailBody.data = some d → strTruthy (some d) = true →
      (buildEmailData message).body = some (decodeB64Utf8 d)) := by
  constructor
  · intro parts hnb hparts
    unfold buildEmailData
    simp [hpl, hnb, hparts]
  · intro d hd htruthy
    unfold buildEmailData
    simp [hpl, hd, htruthy]

/-- C3 witness: two body-bearing parts produce the joined body, a
top-level body produces the single decoded body. -/
theorem claim_C3_read_email_body_witness :
    (buildEmailData demoPartsMessage).body = some "hi\n---\nyo" ∧
    (buildEmailData demoTopBodyMessage).body = some "hi" := by
  constructor
  · have h := (claim_C3_read_email_body demoPartsMessage _ rfl).1 _ rfl rfl
    rw [h]
    rfl
  · have h := (claim_C3_read_email_body demoTopBodyMessage _ rfl).2 "aGk" rfl rfl
    rw [h]
    rfl

/-- C9: the raw message's line list never contains an empty line — the
blank separator between headers and body is always filtered out — and
when the chosen body is empty, the message ends at the Content-Type line
(necessarily `text/plain`, as a truthy `htmlBody` would make the chosen
body non-empty). -/
theorem claim_C9_no_blank_line (a : SendEmailArgs) :
    "" ∉ sendEmailLines a ∧
    (jsOrStr a.htmlBody a.body = "" →
      (sendEmailLines a).getLast? = some "Content-Type: text/plain; charset=utf-8") := by
  constructor
  · intro hmem
    unfold sendEmailLines at hmem
    have hkeep := List.of_mem_filter hmem
    simp at hkeep
  · intro hbody
    have hhtml : strTruthy a.htmlBody = false := by
      cases ha : a.htmlBody with
      | none => rfl
      | some s =>
          simp only [jsOrStr, ha] at hbody
          by_cases hs : s = ""
          · simp [strTruthy, hs]
          · rw [if_neg (by simp [hs])] at hbody
            exact absurd hbody hs
    rw [sendEmailLines_eq_claimed]
    unfold claimedSendLines
    cases hcc : strTruthy a.cc <;> cases hbcc : strTruthy a.bcc <;>
      simp [hhtml, hbody]

/-- C9 witness: a send with an empty body at a concrete input. -/
theorem claim_C9_no_blank_line_witness :
    "" ∉ sendEmailLines demoEmptyBodyArgs ∧
    (sendEmailLines demoEmptyBodyArgs).getLast? =
      some "Content-Type: text/plain; charset=utf-8" :=
  ⟨(claim_C9_no_blank_line demoEmptyBodyArgs).1,
   (claim_C9_no_blank_line demoEmptyBodyArgs).2 rfl⟩

end GmailMcp
